import Mathlib

/-!
Shallow embedding of the CSE160_ASG3 repository core (first-person camera,
gun/bullet subsystem, enemy subsystem, batched cube renderer, and the
per-frame tick driver), together with proofs settling the frozen claims
about the specification.

Conventions of the embedding:
* JavaScript numbers holding geometry (positions, angles, velocities,
  player health) are modelled as real numbers `ℝ`; counters that only ever
  hold integers (bullet life, shoot cooldown, enemy health, score, spawn
  timer) are modelled as `ℤ`; JS booleans are `Bool`.
* Mutation of globals / object fields becomes explicit state passing.
* `Math.random()` inputs (enemy spawn coordinates and bob phase) are
  modelled as oracle parameters supplied to the functions that consume
  them; everything the code fixes about a spawned enemy (health 2,
  y = 0.5, scale 0.6, dead = false) is kept fixed in the model.
* GL calls are side effects outside the state; for the draw routines we
  model the observable selection (which enemies are drawn, how many
  vertices a batch draw issues).
-/

open scoped Classical

noncomputable section

/-- Degree-to-radian conversion `d * Math.PI / 180` used throughout
`src/camera.js` and `src/gun.js`. -/
def rad (d : ℝ) : ℝ := d * Real.pi / 180

/-- Camera state from `src/camera.js`.  The constructor fields that are
never reassigned (`speed`, `panAngle`, `groundY`, `jumpForce`, `gravity`)
are modelled as the constant definitions below. -/
@[ext] structure Camera where
  eye0 : ℝ
  eye1 : ℝ
  eye2 : ℝ
  yaw : ℝ
  pitch : ℝ
  velY : ℝ
  grounded : Bool

namespace Camera

/-- Source `this.speed = 0.15` -/
def speed : ℝ := 0.15

/-- Source `this.panAngle = 3` -/
def panAngle : ℝ := 3

/-- Source `this.groundY = 1.5` -/
def groundY : ℝ := 1.5

/-- Source `this.jumpForce = 0.18` -/
def jumpForce : ℝ := 0.18

/-- Source `this.gravity = 0.012` -/
def gravity : ℝ := 0.012

/-- The look direction `(fx, fy, fz)` computed inside `updateView()`:
`fx = cos(yawR)*cosPitch`, `fy = sin(pitchR)`, `fz = sin(yawR)*cosPitch`.
The view matrix itself (a `setLookAt` from `eye` toward `eye + f`) is GL
state and is not modelled beyond this direction. -/
def lookDir (c : Camera) : ℝ × ℝ × ℝ :=
  let yawR := rad c.yaw
  let pitchR := rad c.pitch
  let cosPitch := Real.cos pitchR
  (Real.cos yawR * cosPitch, Real.sin pitchR, Real.sin yawR * cosPitch)

/-- Source `_fwd()` — horizontal forward direction from yaw alone. -/
def fwd (c : Camera) : ℝ × ℝ × ℝ :=
  let r := rad c.yaw
  (Real.cos r, 0, Real.sin r)

/-- Source `_right()` — horizontal right direction `[sin r, 0, -cos r]`. -/
def rightDir (c : Camera) : ℝ × ℝ × ℝ :=
  let r := rad c.yaw
  (Real.sin r, 0, -Real.cos r)

/-- Source `moveForward()` -/
def moveForward (c : Camera) : Camera :=
  { c with eye0 := c.eye0 + c.fwd.1 * speed, eye2 := c.eye2 + c.fwd.2.2 * speed }

/-- Source `moveBackwards()` -/
def moveBackwards (c : Camera) : Camera :=
  { c with eye0 := c.eye0 - c.fwd.1 * speed, eye2 := c.eye2 - c.fwd.2.2 * speed }

/-- Source `moveLeft()` -/
def moveLeft (c : Camera) : Camera :=
  { c with eye0 := c.eye0 + c.rightDir.1 * speed, eye2 := c.eye2 + c.rightDir.2.2 * speed }

/-- Source `moveRight()` -/
def moveRight (c : Camera) : Camera :=
  { c with eye0 := c.eye0 - c.rightDir.1 * speed, eye2 := c.eye2 - c.rightDir.2.2 * speed }

/-- Source `jump()` — impulse only when grounded. -/
def jump (c : Camera) : Camera :=
  if c.grounded then { c with velY := jumpForce, grounded := false } else c

/-- Source `applyGravity()` — per-frame vertical physics with floor clamp. -/
def applyGravity (c : Camera) : Camera :=
  if c.grounded then c
  else
    let v := c.velY - gravity
    let y := c.eye1 + v
    if y ≤ groundY then { c with eye1 := groundY, velY := 0, grounded := true }
    else { c with eye1 := y, velY := v }

/-- Source `panLeft()` -/
def panLeft (c : Camera) : Camera := { c with yaw := c.yaw - panAngle }

/-- Source `panRight()` -/
def panRight (c : Camera) : Camera := { c with yaw := c.yaw + panAngle }

/-- Source `mouseRotate(dx, dy)` — accumulates angles and clamps pitch to
`[-89, 89]` on every call (`SENS = 0.05`). -/
def mouseRotate (c : Camera) (dx dy : ℝ) : Camera :=
  let yaw1 := c.yaw + dx * 0.05
  let p0 := c.pitch - dy * 0.05
  let p1 := if p0 > 89 then 89 else p0
  let p2 := if p1 < -89 then -89 else p1
  { c with yaw := yaw1, pitch := p2 }

end Camera

/-- Fold a finite sequence of `mouseRotate(dx, dy)` events over a camera,
in event order (each mousemove handler call applies one delta). -/
def applyMouseMoves (ms : List (ℝ × ℝ)) (c : Camera) : Camera :=
  ms.foldl (fun c m => c.mouseRotate m.1 m.2) c

/-- Spec formula (§8): `forward(θ,φ) = (cos θ·cos φ, sin φ, sin θ·cos φ)`,
angles in degrees. -/
def forwardSpec (θ φ : ℝ) : ℝ × ℝ × ℝ :=
  (Real.cos (rad θ) * Real.cos (rad φ), Real.sin (rad φ),
   Real.sin (rad θ) * Real.cos (rad φ))

/-- Spec formula (§8): `right(θ) = (sin θ, 0, −cos θ)`, angle in degrees. -/
def rightSpec (θ : ℝ) : ℝ × ℝ × ℝ :=
  (Real.sin (rad θ), 0, -Real.cos (rad θ))

/-- Euclidean dot product on ℝ³ triples. -/
def dot3 (a b : ℝ × ℝ × ℝ) : ℝ := a.1 * b.1 + a.2.1 * b.2.1 + a.2.2 * b.2.2

-- ── Camera lemmas ──────────────────────────────────────────────

/-- A single `mouseRotate` always leaves pitch inside `[-89, 89]`,
whatever the starting pitch and deltas. -/
theorem mouseRotate_pitch_mem (c : Camera) (dx dy : ℝ) :
    -89 ≤ (c.mouseRotate dx dy).pitch ∧ (c.mouseRotate dx dy).pitch ≤ 89 := by
  unfold Camera.mouseRotate
  dsimp only
  split_ifs with h1 h2 h2
  · constructor <;> norm_num
  · constructor <;> norm_num
  · constructor <;> norm_num
  · push_neg at h1 h2
    norm_num at h1 h2
    constructor <;> linarith

/-- C6: starting from any pitch in `[-89, 89]`, after any finite sequence
of `mouseRotate(dx, dy)` calls with arbitrary deltas the camera's pitch
remains in `[-89, 89]` — the clamp is applied on every mutation. -/
theorem pitch_clamped_after_mouseRotates (ms : List (ℝ × ℝ)) (c : Camera)
    (h1 : -89 ≤ c.pitch) (h2 : c.pitch ≤ 89) :
    -89 ≤ (applyMouseMoves ms c).pitch ∧ (applyMouseMoves ms c).pitch ≤ 89 := by
  induction ms generalizing c with
  | nil => exact ⟨h1, h2⟩
  | cons m rest ih =>
    have hm := mouseRotate_pitch_mem c m.1 m.2
    exact ih (c.mouseRotate m.1 m.2) hm.1 hm.2

/-- Concrete camera used by the witnesses: the constructor state of
`new Camera()` (eye `[16, 1.5, 16]`, yaw 0, pitch 0, grounded). -/
def cam0 : Camera :=
  { eye0 := 16, eye1 := 1.5, eye2 := 16, yaw := 0, pitch := 0,
    velY := 0, grounded := true }

/-- Witness for C6 at the constructor camera and a concrete wild
delta sequence. -/
theorem pitch_clamped_after_mouseRotates_witness :
    (-89 ≤ cam0.pitch ∧ cam0.pitch ≤ 89) ∧
      (-89 ≤ (applyMouseMoves [(3, 10000), (-7, -25000)] cam0).pitch ∧
        (applyMouseMoves [(3, 10000), (-7, -25000)] cam0).pitch ≤ 89) := by
  refine ⟨⟨by norm_num [cam0], by norm_num [cam0]⟩, ?_⟩
  exact pitch_clamped_after_mouseRotates [(3, 10000), (-7, -25000)] cam0
    (by norm_num [cam0]) (by norm_num [cam0])

/-- C7: for pitch in `[-89, 89]`, the camera's look direction matches the
spec formula `(cos θ·cos φ, sin φ, sin θ·cos φ)`, its right direction
matches `(sin θ, 0, −cos θ)`, and the right vector is perpendicular to the
horizontal forward vector and to world-up `(0,1,0)`. -/
theorem camera_directions_match_spec (c : Camera)
    (h1 : -89 ≤ c.pitch) (h2 : c.pitch ≤ 89) :
    c.lookDir = forwardSpec c.yaw c.pitch ∧
      c.rightDir = rightSpec c.yaw ∧
      dot3 c.rightDir c.fwd = 0 ∧
      dot3 c.rightDir (0, 1, 0) = 0 := by
  refine ⟨rfl, rfl, ?_, ?_⟩
  · unfold dot3 Camera.rightDir Camera.fwd
    dsimp only
    ring
  · unfold dot3 Camera.rightDir
    dsimp only
    ring

/-- Witness for C7 at the constructor camera. -/
theorem camera_directions_match_spec_witness :
    cam0.lookDir = forwardSpec cam0.yaw cam0.pitch ∧
      cam0.rightDir = rightSpec cam0.yaw ∧
      dot3 cam0.rightDir cam0.fwd = 0 ∧
      dot3 cam0.rightDir (0, 1, 0) = 0 :=
  camera_directions_match_spec cam0 (by norm_num [cam0]) (by norm_num [cam0])

-- ── Gravity round trip (C8) ────────────────────────────────────

/-- Closed form of the airborne trajectory after a jump from the ground:
after `n` gravity steps (`n ≤ 28`) the camera is still airborne at height
`groundY + 0.006·n·(29 − n)` with vertical velocity `0.18 − 0.012·n`. -/
theorem applyGravity_iterate_air (s : Camera) (hg : s.grounded = true)
    (he : s.eye1 = Camera.groundY) :
    ∀ n : ℕ, n ≤ 28 →
      Camera.applyGravity^[n] s.jump =
        { s with eye1 := Camera.groundY + 0.006 * n * (29 - n),
                 velY := 0.18 - 0.012 * n, grounded := false } := by
  have hjump : s.jump = { s with velY := 0.18, grounded := false } := by
    unfold Camera.jump
    rw [if_pos hg]
    rfl
  intro n hn
  induction n with
  | zero =>
    simp only [Function.iterate_zero, id_eq, hjump]
    ext <;> simp [he, Camera.groundY]
  | succ m ih =>
    have hm : m ≤ 28 := Nat.le_of_succ_le hn
    have hm' : m ≤ 27 := Nat.lt_succ_iff.mp (Nat.lt_of_succ_le hn)
    rw [Function.iterate_succ_apply', ih hm]
    unfold Camera.applyGravity
    rw [if_neg (by simp)]
    dsimp only
    have hmR : (m : ℝ) ≤ 27 := by exact_mod_cast hm'
    have hpos : Camera.groundY + 0.006 * (m : ℝ) * (29 - m) +
        (0.18 - 0.012 * m - Camera.gravity) > Camera.groundY := by
      unfold Camera.groundY Camera.gravity
      nlinarith [Nat.cast_nonneg (α := ℝ) m]
    rw [if_neg (by linarith)]
    ext <;> push_cast <;> simp [Camera.gravity] <;> ring

/-- C8: starting from a grounded camera at ground height, `jump()`
followed by repeated `applyGravity()` stays airborne for 28 steps and on
the 29th `applyGravity` call lands exactly: eye height restored to
`groundY`, vertical velocity reset to 0, `grounded` true again.  The
landing frame count (29) is thus a deterministic function of the fixed
`jumpForce`/`gravity` constants. -/
theorem gravity_roundtrip (s : Camera) (hg : s.grounded = true)
    (he : s.eye1 = Camera.groundY) :
    (∀ n : ℕ, n ≤ 28 → (Camera.applyGravity^[n] s.jump).grounded = false) ∧
      Camera.applyGravity^[29] s.jump =
        { s with eye1 := Camera.groundY, velY := 0, grounded := true } := by
  constructor
  · intro n hn
    rw [applyGravity_iterate_air s hg he n hn]
  · rw [show (29 : ℕ) = 28 + 1 from rfl, Function.iterate_succ_apply',
      applyGravity_iterate_air s hg he 28 (le_refl 28)]
    unfold Camera.applyGravity
    rw [if_neg (by simp)]
    dsimp only
    rw [if_pos (by unfold Camera.groundY Camera.gravity; norm_num)]

/-- Witness for C8 at the constructor camera. -/
theorem gravity_roundtrip_witness :
    (∀ n : ℕ, n ≤ 28 → (Camera.applyGravity^[n] cam0.jump).grounded = false) ∧
      Camera.applyGravity^[29] cam0.jump =
        { cam0 with eye1 := Camera.groundY, velY := 0, grounded := true } :=
  gravity_roundtrip cam0 (by norm_num [cam0]) (by norm_num [cam0, Camera.groundY])

-- ── Gun subsystem (`src/gun.js`) ───────────────────────────────

/-- A bullet record `{x, y, z, dx, dy, dz, life}`. -/
@[ext] structure Bullet where
  x : ℝ
  y : ℝ
  z : ℝ
  dx : ℝ
  dy : ℝ
  dz : ℝ
  life : ℤ

/-- The module-level gun state: `g_bullets` and `g_shootCooldown`. -/
@[ext] structure GunState where
  bullets : List Bullet
  cooldown : ℤ

/-- Source `BULLET_SPEED = 0.5` -/
def BULLET_SPEED : ℝ := 0.5

/-- Source `BULLET_LIFE = 80` -/
def BULLET_LIFE : ℤ := 80

/-- Source `SHOOT_COOLDOWN = 12` -/
def SHOOT_COOLDOWN : ℤ := 12

/-- Source `shoot(camera)` — a no-op while the cooldown is positive; otherwise
resets the cooldown and appends a bullet aimed along the camera's
yaw/pitch direction with speed `BULLET_SPEED` and life `BULLET_LIFE`. -/
def shoot (cam : Camera) (g : GunState) : GunState :=
  if 0 < g.cooldown then g
  else
    let yawR := rad cam.yaw
    let pitchR := rad cam.pitch
    let cp := Real.cos pitchR
    let dx := Real.cos yawR * cp
    let dy := Real.sin pitchR
    let dz := Real.sin yawR * cp
    { bullets := g.bullets ++
        [{ x := cam.eye0 + dx * 0.5, y := cam.eye1 + dy * 0.5,
           z := cam.eye2 + dz * 0.5,
           dx := dx * BULLET_SPEED, dy := dy * BULLET_SPEED,
           dz := dz * BULLET_SPEED, life := BULLET_LIFE }],
      cooldown := SHOOT_COOLDOWN }

/-- The per-bullet body of the `updateBullets` loop: integrate position,
decrement life. -/
def stepBullet (b : Bullet) : Bullet :=
  { b with x := b.x + b.dx, y := b.y + b.dy, z := b.z + b.dz,
           life := b.life - 1 }

/-- Source `updateBullets()` — decrement the cooldown when positive, advance
every bullet, then keep only bullets with `life > 0`. -/
def updateBullets (g : GunState) : GunState :=
  { bullets := (g.bullets.map stepBullet).filter (fun b => decide (0 < b.life)),
    cooldown := if 0 < g.cooldown then g.cooldown - 1 else g.cooldown }

/-- Source `shoot` during cooldown returns the state unchanged (the early
`return`). -/
theorem shoot_noop (cam : Camera) (g : GunState) (h : 0 < g.cooldown) :
    shoot cam g = g := by
  unfold shoot
  rw [if_pos h]

/-- A successful `shoot` appends one bullet of life `BULLET_LIFE` and
resets the cooldown to `SHOOT_COOLDOWN`. -/
theorem shoot_success (cam : Camera) (g : GunState) (h : ¬ 0 < g.cooldown) :
    (shoot cam g).bullets.map Bullet.life =
        g.bullets.map Bullet.life ++ [BULLET_LIFE] ∧
      (shoot cam g).cooldown = SHOOT_COOLDOWN := by
  unfold shoot
  rw [if_neg h]
  simp

/-- One advance maps the list of lifetimes through "subtract one, drop
non-positives" (stated at the level of the projected life values). -/
theorem updateBullets_lives (g : GunState) :
    (updateBullets g).bullets.map Bullet.life =
      ((g.bullets.map Bullet.life).map (fun x : ℤ => x - 1)).filter
        (fun x : ℤ => decide (0 < x)) := by
  show ((g.bullets.map stepBullet).filter (fun b => decide (0 < b.life))).map
      Bullet.life = _
  induction g.bullets with
  | nil => rfl
  | cons b bs ih =>
    by_cases hb : 0 < b.life - 1
    · simp only [List.map_cons, List.filter_cons, stepBullet]
      rw [decide_eq_true hb]
      simpa using ih
    · simp only [List.map_cons, List.filter_cons, stepBullet]
      rw [decide_eq_false hb]
      simpa using ih

/-- Dropping non-positives before a further "subtract `c ≥ 0`, keep
positives" pass changes nothing: a value positive after the later
subtraction was already positive before it. -/
theorem filter_dec_filter (c : ℤ) (hc : 0 ≤ c) (l : List ℤ) :
    ((l.filter (fun x : ℤ => decide (0 < x))).map (fun x : ℤ => x - c)).filter
        (fun x : ℤ => decide (0 < x)) =
      (l.map (fun x : ℤ => x - c)).filter (fun x : ℤ => decide (0 < x)) := by
  induction l with
  | nil => rfl
  | cons x xs ih =>
    by_cases hx : 0 < x
    · simp [List.filter_cons, List.map_cons, hx, ih]
    · have hx1 : ¬ 0 < x - c := by omega
      simp [List.filter_cons, List.map_cons, hx, hx1, ih]

/-- Lifetimes after `k + 1` advances: every bullet's life has gone down by
exactly `k + 1`, and precisely the bullets whose life is still positive
remain. -/
theorem updateBullets_iterate_lives (k : ℕ) (g : GunState) :
    (updateBullets^[k + 1] g).bullets.map Bullet.life =
      ((g.bullets.map Bullet.life).map (fun x : ℤ => x - ((k : ℤ) + 1))).filter
        (fun x : ℤ => decide (0 < x)) := by
  induction k generalizing g with
  | zero => simpa using updateBullets_lives g
  | succ m ih =>
    rw [Function.iterate_succ_apply, ih (updateBullets g), updateBullets_lives g,
      filter_dec_filter ((m : ℤ) + 1) (by omega), List.map_map]
    have hfun : ((fun x : ℤ => x - ((m : ℤ) + 1)) ∘ fun x : ℤ => x - 1) =
        fun x : ℤ => x - ((↑(m + 1) : ℤ) + 1) := by
      funext x
      simp only [Function.comp_apply]
      push_cast
      ring
    rw [hfun]

/-- C4: (i) a successful `shoot` appends one bullet with life
`BULLET_LIFE = 80`; (ii) each `updateBullets` advance decreases every
surviving bullet's life by exactly 1 and removes a bullet on the advance
where its life reaches 0 (stated for all iterates); (iii) hence a fired
bullet that is never consumed by a hit is live for exactly 80 advances:
after `k + 1` advances it is present with life `80 − (k + 1)` iff
`k + 1 < 80`. -/
theorem bullet_lifecycle (cam : Camera) (g g' : GunState) (k : ℕ)
    (h : ¬ 0 < g.cooldown) :
    (shoot cam g).bullets.map Bullet.life =
        g.bullets.map Bullet.life ++ [BULLET_LIFE] ∧
      ((updateBullets^[k + 1] g').bullets.map Bullet.life =
        ((g'.bullets.map Bullet.life).map (fun x : ℤ => x - ((k : ℤ) + 1))).filter
          (fun x : ℤ => decide (0 < x))) ∧
      ((updateBullets^[k + 1] (shoot cam g)).bullets.map Bullet.life =
        ((g.bullets.map Bullet.life).map (fun x : ℤ => x - ((k : ℤ) + 1))).filter
            (fun x : ℤ => decide (0 < x)) ++
          (if ((k : ℤ) + 1) < BULLET_LIFE then [BULLET_LIFE - ((k : ℤ) + 1)]
            else [])) := by
  have hshoot := (shoot_success cam g h).1
  refine ⟨hshoot, updateBullets_iterate_lives k g', ?_⟩
  rw [updateBullets_iterate_lives k (shoot cam g), hshoot]
  rw [List.map_append, List.filter_append]
  congr 1
  by_cases hk : ((k : ℤ) + 1) < BULLET_LIFE
  · rw [if_pos hk]
    simp only [List.map_cons, List.map_nil, List.filter_cons]
    rw [decide_eq_true (by omega : (0 : ℤ) < BULLET_LIFE - ((k : ℤ) + 1))]
    rfl
  · rw [if_neg hk]
    simp only [List.map_cons, List.map_nil, List.filter_cons]
    rw [decide_eq_false (by omega : ¬ (0 : ℤ) < BULLET_LIFE - ((k : ℤ) + 1))]
    rfl

/-- Witness for C4: fresh gun state (`initGun()`), one shot, three
advances. -/
theorem bullet_lifecycle_witness :
    (¬ 0 < (GunState.mk [] 0).cooldown) ∧
      ((shoot cam0 (GunState.mk [] 0)).bullets.map Bullet.life =
          ([] : List Bullet).map Bullet.life ++ [BULLET_LIFE] ∧
        ((updateBullets^[2 + 1] (GunState.mk [] 0)).bullets.map Bullet.life =
          ((([] : List Bullet).map Bullet.life).map
              (fun x : ℤ => x - ((2 : ℤ) + 1))).filter
            (fun x : ℤ => decide (0 < x))) ∧
        ((updateBullets^[2 + 1] (shoot cam0 (GunState.mk [] 0))).bullets.map
            Bullet.life =
          ((([] : List Bullet).map Bullet.life).map
                (fun x : ℤ => x - ((2 : ℤ) + 1))).filter
              (fun x : ℤ => decide (0 < x)) ++
            (if ((2 : ℤ) + 1) < BULLET_LIFE then [BULLET_LIFE - ((2 : ℤ) + 1)]
              else []))) :=
  ⟨by norm_num, bullet_lifecycle cam0 (GunState.mk [] 0) (GunState.mk [] 0) 2
    (by norm_num)⟩

/-- After `k` advances from a state whose cooldown is at least `k`, the
cooldown has gone down by exactly `k` (one decrement per advance). -/
theorem updateBullets_iterate_cooldown (k : ℕ) (g : GunState)
    (hk : (k : ℤ) ≤ g.cooldown) :
    (updateBullets^[k] g).cooldown = g.cooldown - k := by
  induction k generalizing g with
  | zero => simp
  | succ m ih =>
    have h0 : 0 < g.cooldown := by push_cast at hk; omega
    have hdec : (updateBullets g).cooldown = g.cooldown - 1 := by
      unfold updateBullets
      dsimp only
      rw [if_pos h0]
    rw [Function.iterate_succ_apply,
      ih (updateBullets g) (by rw [hdec]; push_cast at hk ⊢; omega), hdec]
    push_cast
    ring

/-- C5: after a successful fire, (i) the cooldown is `SHOOT_COOLDOWN = 12`;
(ii) for each `k < 12`, after `k` advances the cooldown is `12 − k` and a
`fire` call is a complete no-op (returns the state unchanged); (iii) after
the 12th advance the cooldown is back to 0 and `fire` succeeds again,
appending a fresh bullet. -/
theorem fire_cooldown_gate (cam cam' : Camera) (g : GunState)
    (h : ¬ 0 < g.cooldown) :
    (shoot cam g).cooldown = SHOOT_COOLDOWN ∧
      (∀ k : ℕ, k < 12 →
        (updateBullets^[k] (shoot cam g)).cooldown = 12 - (k : ℤ) ∧
          shoot cam' (updateBullets^[k] (shoot cam g)) =
            updateBullets^[k] (shoot cam g)) ∧
      (updateBullets^[12] (shoot cam g)).cooldown = 0 ∧
      (shoot cam' (updateBullets^[12] (shoot cam g))).bullets.map Bullet.life =
        ((updateBullets^[12] (shoot cam g)).bullets.map Bullet.life ++
          [BULLET_LIFE]) := by
  have hcd := (shoot_success cam g h).2
  have h12 : (updateBullets^[12] (shoot cam g)).cooldown = 0 := by
    rw [updateBullets_iterate_cooldown 12 _
      (by rw [hcd]; unfold SHOOT_COOLDOWN; omega), hcd]
    unfold SHOOT_COOLDOWN
    ring
  refine ⟨hcd, ?_, h12, ?_⟩
  · intro k hk
    have hcool : (updateBullets^[k] (shoot cam g)).cooldown = 12 - (k : ℤ) := by
      rw [updateBullets_iterate_cooldown k _
        (by rw [hcd]; unfold SHOOT_COOLDOWN; omega), hcd]
      unfold SHOOT_COOLDOWN
      ring
    exact ⟨hcool, shoot_noop cam' _ (by rw [hcool]; omega)⟩
  · exact (shoot_success cam' _ (by rw [h12]; omega)).1

/-- Witness for C5 at the fresh gun state. -/
theorem fire_cooldown_gate_witness :
    (¬ 0 < (GunState.mk [] 0).cooldown) ∧
      ((shoot cam0 (GunState.mk [] 0)).cooldown = SHOOT_COOLDOWN ∧
        (∀ k : ℕ, k < 12 →
          (updateBullets^[k] (shoot cam0 (GunState.mk [] 0))).cooldown =
              12 - (k : ℤ) ∧
            shoot cam0 (updateBullets^[k] (shoot cam0 (GunState.mk [] 0))) =
              updateBullets^[k] (shoot cam0 (GunState.mk [] 0))) ∧
        (updateBullets^[12] (shoot cam0 (GunState.mk [] 0))).cooldown = 0 ∧
        (shoot cam0 (updateBullets^[12] (shoot cam0 (GunState.mk [] 0)))).bullets.map
            Bullet.life =
          ((updateBullets^[12] (shoot cam0 (GunState.mk [] 0))).bullets.map
              Bullet.life ++ [BULLET_LIFE])) :=
  ⟨by norm_num, fire_cooldown_gate cam0 cam0 (GunState.mk [] 0) (by norm_num)⟩

-- ── Enemy subsystem (`src/enemies.js`) ─────────────────────────

/-- An enemy record `{x, y, z, health, scale, bobTime, dead}`. -/
@[ext] structure Enemy where
  x : ℝ
  y : ℝ
  z : ℝ
  health : ℤ
  scale : ℝ
  bobTime : ℝ
  dead : Bool

/-- Source `ENEMY_SPEED = 0.02` -/
def ENEMY_SPEED : ℝ := 0.02

/-- Source `ENEMY_SPAWN_RATE = 180` -/
def ENEMY_SPAWN_RATE : ℤ := 180

/-- Source `ENEMY_MAX = 20` -/
def ENEMY_MAX : ℕ := 20

/-- Source `ENEMY_DAMAGE_DIST = 1.2` -/
def ENEMY_DAMAGE_DIST : ℝ := 1.2

/-- The enemy built by `spawnEnemy()`.  The random edge position `(x, z)`
and bob phase are supplied by the oracle triple `r`; the code fixes
`y = 0.5`, `health = 2`, `scale = 0.6`, `dead = false`. -/
def mkSpawn (r : ℝ × ℝ × ℝ) : Enemy :=
  { x := r.1, y := 0.5, z := r.2.1, health := 2, scale := 0.6,
    bobTime := r.2.2, dead := false }

/-- The bullet-to-enemy distance `sqrt(dx*dx + dy*dy + dz*dz)` computed in
`checkBulletHits`. -/
def bulletDist (b : Bullet) (e : Enemy) : ℝ :=
  Real.sqrt ((b.x - e.x) * (b.x - e.x) + (b.y - e.y) * (b.y - e.y) +
    (b.z - e.z) * (b.z - e.z))

/-- Inner loop of `checkBulletHits` for one bullet: scan the enemy list in
order, skip dead enemies, and resolve the bullet against the first live
enemy within radius `scale + 0.3` (decrement health; mark dead and award
10 score when the health reaches 0; stop scanning).  Returns the updated
enemy list, the score delta, and whether the bullet hit. -/
def scanEnemies (b : Bullet) : List Enemy → List Enemy × ℤ × Bool
  | [] => ([], 0, false)
  | e :: es =>
    if e.dead then
      let r := scanEnemies b es
      (e :: r.1, r.2.1, r.2.2)
    else if bulletDist b e < e.scale + 0.3 then
      let h1 := e.health - 1
      if h1 ≤ 0 then ({ e with health := h1, dead := true } :: es, 10, true)
      else ({ e with health := h1 } :: es, 0, true)
    else
      let r := scanEnemies b es
      (e :: r.1, r.2.1, r.2.2)

/-- Source `checkBulletHits(bullets)` against an explicit enemy-list state:
returns the surviving bullets (in order), the updated enemy list, and the
total score delta.  Each bullet is consumed by the first enemy it is found
to intersect; enemy mutations made by earlier bullets are visible to later
ones. -/
def checkBulletHits : List Bullet → List Enemy → List Bullet × List Enemy × ℤ
  | [], es => ([], es, 0)
  | b :: bs, es =>
    let s := scanEnemies b es
    let r := checkBulletHits bs s.1
    (if s.2.2 then r.1 else b :: r.1, r.2.1, s.2.1 + r.2.2)

/-- Body of the `updateEnemies` loop over the enemy list: skip dead
enemies; steer each live enemy toward the player's horizontal position
(normalised direction times `ENEMY_SPEED`, only when the distance exceeds
0.01); advance the bob phase and recompute `y`; apply 0.15 proximity
damage to the threaded player health (clamped at 0) when within
`ENEMY_DAMAGE_DIST`.  Enemies are processed in list order, each seeing the
player health left by its predecessors. -/
def enemyPass (px pz : ℝ) : List Enemy → ℝ → List Enemy × ℝ
  | [], ph => ([], ph)
  | e :: es, ph =>
    if e.dead then
      let r := enemyPass px pz es ph
      (e :: r.1, r.2)
    else
      let dx := px - e.x
      let dz := pz - e.z
      let dist := Real.sqrt (dx * dx + dz * dz)
      let e1 := if dist > 0.01 then
          { e with x := e.x + dx / dist * ENEMY_SPEED,
                   z := e.z + dz / dist * ENEMY_SPEED }
        else e
      let e2 := { e1 with bobTime := e1.bobTime + 0.08,
                          y := 0.5 + |Real.sin (e1.bobTime + 0.08)| * 0.15 }
      let ph1 := if dist < ENEMY_DAMAGE_DIST then
          (if ph - 0.15 < 0 then 0 else ph - 0.15)
        else ph
      let r := enemyPass px pz es ph1
      (e2 :: r.1, r.2)

/-- Source `updateEnemies(camera)` on explicit state: advance the spawn timer and
spawn (append) the oracle enemy when the timer fires and the population is
below `ENEMY_MAX`; run the per-enemy pass (the newly spawned enemy is part
of the iterated list, as in the source); finally drop every dead enemy.
Returns the new enemy list, spawn timer, and player health. -/
def updateEnemiesSim (r : ℝ × ℝ × ℝ) (cam : Camera) (es : List Enemy)
    (timer : ℤ) (ph : ℝ) : List Enemy × ℤ × ℝ :=
  let timer1 := timer + 1
  let spawned : List Enemy × ℤ :=
    if ENEMY_SPAWN_RATE ≤ timer1 then
      (if es.length < ENEMY_MAX then es ++ [mkSpawn r] else es, 0)
    else (es, timer1)
  let p := enemyPass cam.eye0 cam.eye2 spawned.1 ph
  (p.1.filter (fun e => !e.dead), spawned.2, p.2)

/-- The enemies actually rendered by `drawEnemies` (the loop `continue`s
over dead enemies, so exactly the live ones are drawn). -/
def drawnEnemies (es : List Enemy) : List Enemy :=
  es.filter (fun e => !e.dead)

/-- C3: an enemy with health 2 takes exactly 2 resolved hits to die.  The
first resolved hit consumes the bullet, lowers health to 1, leaves the
enemy alive and adds nothing to the score; the second resolved hit lowers
health to 0, sets the dead flag and adds the per-kill amount 10 exactly
once. -/
theorem enemy_two_hits_to_die (e : Enemy) (b1 b2 : Bullet)
    (hh : e.health = 2) (hd : e.dead = false)
    (h1 : bulletDist b1 e < e.scale + 0.3)
    (h2 : bulletDist b2 { e with health := 1 } <
      ({ e with health := 1 } : Enemy).scale + 0.3) :
    checkBulletHits [b1] [e] = ([], [{ e with health := 1 }], 0) ∧
      checkBulletHits [b2] [{ e with health := 1 }] =
        ([], [{ e with health := 0, dead := true }], 10) := by
  obtain ⟨ex, ey, ez, eh, esc, eb, ed⟩ := e
  dsimp only at hh hd h1 h2 ⊢
  subst hh
  subst hd
  constructor
  · have hs : scanEnemies b1 [⟨ex, ey, ez, 2, esc, eb, false⟩] =
        ([⟨ex, ey, ez, 1, esc, eb, false⟩], 0, true) := by
      simp only [scanEnemies]
      rw [if_neg (by simp), if_pos h1]
      norm_num
    simp [checkBulletHits, hs]
  · have hs : scanEnemies b2 [⟨ex, ey, ez, 1, esc, eb, false⟩] =
        ([⟨ex, ey, ez, 0, esc, eb, true⟩], 10, true) := by
      simp only [scanEnemies]
      rw [if_neg (by simp), if_pos h2]
      norm_num
    simp [checkBulletHits, hs]

/-- Concrete enemy for the C3 witness: spawned at `(5, 0.5, 5)` (health 2,
scale 0.6, not dead). -/
def enemyW : Enemy := mkSpawn (5, 5, 0)

/-- Concrete bullet for the C3 witness, located exactly at the witness
enemy's position. -/
def bulletW : Bullet :=
  { x := 5, y := 0.5, z := 5, dx := 0.5, dy := 0, dz := 0, life := 40 }

/-- Witness for C3: two point-blank hits on a fresh spawned enemy. -/
theorem enemy_two_hits_to_die_witness :
    (enemyW.health = 2 ∧ enemyW.dead = false ∧
      bulletDist bulletW enemyW < enemyW.scale + 0.3) ∧
      checkBulletHits [bulletW] [enemyW] = ([], [{ enemyW with health := 1 }], 0) ∧
      checkBulletHits [bulletW] [{ enemyW with health := 1 }] =
        ([], [{ enemyW with health := 0, dead := true }], 10) := by
  have hdist : ∀ h : ℤ, bulletDist bulletW { enemyW with health := h } <
      ({ enemyW with health := h } : Enemy).scale + 0.3 := by
    intro h
    unfold bulletDist bulletW enemyW mkSpawn
    norm_num
  refine ⟨⟨rfl, rfl, ?_⟩, ?_⟩
  · have := hdist 2
    simpa using this
  · exact enemy_two_hits_to_die enemyW bulletW bulletW rfl rfl
      (by have := hdist 2; simpa using this) (hdist 1)

/-- C10 (part of): a dead enemy is inert in the `updateEnemies` loop — the
pass over a list containing it leaves it byte-for-byte unchanged in place
(no movement, no bob, flag never cleared) and threads the player health
around it exactly as if it were absent (no proximity damage). -/
theorem enemyPass_dead_inert (d : Enemy) (hd : d.dead = true) (px pz : ℝ)
    (l1 l2 : List Enemy) (ph : ℝ) :
    enemyPass px pz (l1 ++ d :: l2) ph =
      ((enemyPass px pz l1 ph).1 ++
          d :: (enemyPass px pz l2 (enemyPass px pz l1 ph).2).1,
        (enemyPass px pz l2 (enemyPass px pz l1 ph).2).2) := by
  induction l1 generalizing ph with
  | nil =>
    simp only [List.nil_append]
    simp only [enemyPass]
    simp [hd]
  | cons e l1 ih =>
    simp only [List.cons_append]
    simp only [enemyPass]
    by_cases he : e.dead = true
    · simp only [he, if_true]
      rw [ih ph]
      simp
    · have he' : e.dead = false := Bool.eq_false_iff.mpr he
      simp only [he', Bool.false_eq_true, if_false]
      rw [ih]
      simp

/-- C10 (part of): a dead enemy is inert in bullet-hit resolution — the
scan returns it unchanged in place, it absorbs no bullet, takes no damage
and awards no score; the scan outcome is exactly that of the list without
it. -/
theorem scanEnemies_dead_inert (d : Enemy) (hd : d.dead = true) (b : Bullet)
    (l1 l2 : List Enemy) :
    scanEnemies b (l1 ++ d :: l2) =
      (if (scanEnemies b l1).2.2 then
        ((scanEnemies b l1).1 ++ d :: l2, (scanEnemies b l1).2.1, true)
      else
        ((scanEnemies b l1).1 ++ d :: (scanEnemies b l2).1,
          (scanEnemies b l2).2.1, (scanEnemies b l2).2.2)) := by
  induction l1 with
  | nil =>
    simp only [List.nil_append]
    simp only [scanEnemies]
    simp [hd]
  | cons e l1 ih =>
    simp only [List.cons_append]
    simp only [scanEnemies]
    by_cases he : e.dead = true
    · simp only [he, if_true]
      rw [ih]
      by_cases hh : (scanEnemies b l1).2.2
      · simp [hh]
      · simp [hh]
    · have he' : e.dead = false := Bool.eq_false_iff.mpr he
      simp only [he', Bool.false_eq_true, if_false]
      by_cases hhit : bulletDist b e < e.scale + 0.3
      · rw [if_pos hhit, if_pos hhit]
        by_cases hkill : e.health - 1 ≤ 0
        · rw [if_pos hkill, if_pos hkill]
          simp
        · rw [if_neg hkill, if_neg hkill]
          simp
      · rw [if_neg hhit, if_neg hhit]
        rw [ih]
        by_cases hh : (scanEnemies b l1).2.2
        · simp [hh]
        · simp [hh]

/-- C10: once an enemy's dead flag is set it is never cleared, and while
it remains in the list it is inert: the enemy-advance pass neither moves
it nor lets it damage the player, hit resolution never lets it absorb a
bullet or take further damage or award score, and it is not drawn. -/
theorem dead_enemy_inert (d : Enemy) (hd : d.dead = true) (px pz : ℝ)
    (b : Bullet) (l1 l2 : List Enemy) (ph : ℝ) :
    (enemyPass px pz (l1 ++ d :: l2) ph =
      ((enemyPass px pz l1 ph).1 ++
          d :: (enemyPass px pz l2 (enemyPass px pz l1 ph).2).1,
        (enemyPass px pz l2 (enemyPass px pz l1 ph).2).2)) ∧
      (scanEnemies b (l1 ++ d :: l2) =
        (if (scanEnemies b l1).2.2 then
          ((scanEnemies b l1).1 ++ d :: l2, (scanEnemies b l1).2.1, true)
        else
          ((scanEnemies b l1).1 ++ d :: (scanEnemies b l2).1,
            (scanEnemies b l2).2.1, (scanEnemies b l2).2.2))) ∧
      drawnEnemies (l1 ++ d :: l2) = drawnEnemies (l1 ++ l2) :=
  ⟨enemyPass_dead_inert d hd px pz l1 l2 ph,
    scanEnemies_dead_inert d hd b l1 l2,
    by unfold drawnEnemies; simp [List.filter_append, hd]⟩

/-- A concrete dead enemy for the C10 witness. -/
def deadEnemyW : Enemy :=
  { x := 7, y := 0.5, z := 9, health := 0, scale := 0.6, bobTime := 1,
    dead := true }

/-- Witness for C10: the dead enemy alone in the list, against the witness
bullet and a concrete player position. -/
theorem dead_enemy_inert_witness :
    deadEnemyW.dead = true ∧
      ((enemyPass 16 16 ([] ++ deadEnemyW :: []) 100 =
        ((enemyPass 16 16 [] 100).1 ++
            deadEnemyW :: (enemyPass 16 16 [] (enemyPass 16 16 [] 100).2).1,
          (enemyPass 16 16 [] (enemyPass 16 16 [] 100).2).2)) ∧
        (scanEnemies bulletW ([] ++ deadEnemyW :: []) =
          (if (scanEnemies bulletW []).2.2 then
            ((scanEnemies bulletW []).1 ++ deadEnemyW :: [],
              (scanEnemies bulletW []).2.1, true)
          else
            ((scanEnemies bulletW []).1 ++ deadEnemyW :: (scanEnemies bulletW []).1,
              (scanEnemies bulletW []).2.1, (scanEnemies bulletW []).2.2))) ∧
        drawnEnemies ([] ++ deadEnemyW :: []) = drawnEnemies ([] ++ [])) :=
  ⟨rfl, dead_enemy_inert deadEnemyW rfl 16 16 bulletW [] [] 100⟩

-- ── Batched cube renderer (`src/cube.js`) ──────────────────────

/-- The interleaved unit-cube template produced by `_buildCubeVerts()`:
36 vertices of `[x, y, z, u, v]`, one row per vertex, six faces of two
triangles each. -/
def cubeTemplate : List ℚ :=
  [ -0.5, -0.5,  0.5, 0, 0,   0.5, -0.5,  0.5, 1, 0,   0.5,  0.5,  0.5, 1, 1,
    -0.5, -0.5,  0.5, 0, 0,   0.5,  0.5,  0.5, 1, 1,  -0.5,  0.5,  0.5, 0, 1,
     0.5, -0.5, -0.5, 0, 0,  -0.5, -0.5, -0.5, 1, 0,  -0.5,  0.5, -0.5, 1, 1,
     0.5, -0.5, -0.5, 0, 0,  -0.5,  0.5, -0.5, 1, 1,   0.5,  0.5, -0.5, 0, 1,
    -0.5, -0.5, -0.5, 0, 0,  -0.5, -0.5,  0.5, 1, 0,  -0.5,  0.5,  0.5, 1, 1,
    -0.5, -0.5, -0.5, 0, 0,  -0.5,  0.5,  0.5, 1, 1,  -0.5,  0.5, -0.5, 0, 1,
     0.5, -0.5,  0.5, 0, 0,   0.5, -0.5, -0.5, 1, 0,   0.5,  0.5, -0.5, 1, 1,
     0.5, -0.5,  0.5, 0, 0,   0.5,  0.5, -0.5, 1, 1,   0.5,  0.5,  0.5, 0, 1,
    -0.5,  0.5,  0.5, 0, 0,   0.5,  0.5,  0.5, 1, 0,   0.5,  0.5, -0.5, 1, 1,
    -0.5,  0.5,  0.5, 0, 0,   0.5,  0.5, -0.5, 1, 1,  -0.5,  0.5, -0.5, 0, 1,
    -0.5, -0.5, -0.5, 0, 0,   0.5, -0.5, -0.5, 1, 0,   0.5, -0.5,  0.5, 1, 1,
    -0.5, -0.5, -0.5, 0, 0,   0.5, -0.5,  0.5, 1, 1,  -0.5, -0.5,  0.5, 0, 1 ]

/-- A cuboid placement descriptor `{tx, ty, tz, sx, sy, sz}` consumed by
`CubeBatch.build` (the per-descriptor `texNum` field is not read by
`build`, which takes the batch-wide texture as a parameter). -/
structure CubeDesc where
  tx : ℚ
  ty : ℚ
  tz : ℚ
  sx : ℚ
  sy : ℚ
  sz : ℚ

/-- The five floats written for template vertex `v` of one descriptor:
position scaled and translated, UV copied through. -/
def bakeVert (d : CubeDesc) (v : ℕ) : List ℚ :=
  [ cubeTemplate.getD (v * 5) 0 * d.sx + d.tx,
    cubeTemplate.getD (v * 5 + 1) 0 * d.sy + d.ty,
    cubeTemplate.getD (v * 5 + 2) 0 * d.sz + d.tz,
    cubeTemplate.getD (v * 5 + 3) 0,
    cubeTemplate.getD (v * 5 + 4) 0 ]

/-- The 180 floats one descriptor contributes to the batch buffer (inner
loop of `build`, `v = 0 … 35`). -/
def bakeCube (d : CubeDesc) : List ℚ :=
  (List.range 36).foldr (fun v acc => bakeVert d v ++ acc) []

/-- The whole interleaved buffer `buf` written by `build` (outer loop over
the descriptors, in order). -/
def batchBuffer (descs : List CubeDesc) : List ℚ :=
  descs.foldr (fun d acc => bakeCube d ++ acc) []

/-- CubeBatch object state: `vbo` presence, vertex count, shared texture,
and the baked buffer contents. -/
structure CubeBatch where
  hasVBO : Bool
  vertCount : ℕ
  texNum : ℤ
  buffer : List ℚ

/-- Source `CubeBatch.build(gl, cubeDescs, texNum)` — rebakes the whole buffer
and sets `vertCount = cubeDescs.length * 36`. -/
def CubeBatch.build (_b : CubeBatch) (descs : List CubeDesc) (tex : ℤ) :
    CubeBatch :=
  { hasVBO := true, vertCount := descs.length * 36, texNum := tex,
    buffer := batchBuffer descs }

/-- Source `CubeBatch.draw(gl, locs)` — the number of vertices issued by the
single `gl.drawArrays(gl.TRIANGLES, 0, this.vertCount)` call; 0 when the
guard `(!this.vbo || this.vertCount === 0)` returns early. -/
def CubeBatch.draw (b : CubeBatch) : ℕ :=
  if b.hasVBO = false ∨ b.vertCount = 0 then 0 else b.vertCount

/-- Each descriptor contributes exactly 36 vertices × 5 floats to the
buffer. -/
theorem bakeCube_length (d : CubeDesc) : (bakeCube d).length = 180 := by
  unfold bakeCube
  have h : ∀ (n : ℕ) (init : List ℚ),
      ((List.range n).foldr (fun v acc => bakeVert d v ++ acc) init).length =
        5 * n + init.length := by
    intro n
    induction n with
    | zero => intro init; simp
    | succ m ih =>
      intro init
      rw [List.range_succ, List.foldr_append]
      rw [ih]
      simp [bakeVert]
      ring
  simpa using h 36 []

/-- The baked buffer holds `36 × 5` floats per placement. -/
theorem batchBuffer_length (descs : List CubeDesc) :
    (batchBuffer descs).length = descs.length * 180 := by
  unfold batchBuffer
  induction descs with
  | nil => simp
  | cons d ds ih =>
    simp only [List.foldr_cons, List.length_append, List.length_cons, ih,
      bakeCube_length]
    ring

/-- C9: after `build(placements, tex)` the batch's vertex count is
`36 × len(placements)`, `draw()` issues exactly that many vertices in its
single draw call, the baked buffer holds five floats for each of those
vertices, and building with an empty placement list makes `draw()` issue
nothing. -/
theorem cubeBatch_build_draw (b : CubeBatch) (descs : List CubeDesc) (tex : ℤ) :
    (b.build descs tex).vertCount = 36 * descs.length ∧
      (b.build descs tex).draw = 36 * descs.length ∧
      (b.build descs tex).buffer.length = 36 * descs.length * 5 ∧
      (b.build [] tex).draw = 0 := by
  refine ⟨Nat.mul_comm descs.length 36, ?_, ?_, rfl⟩
  · unfold CubeBatch.draw CubeBatch.build
    cases descs with
    | nil => simp
    | cons d ds =>
      dsimp only
      rw [if_neg (by simp)]
      ring
  · show (batchBuffer descs).length = 36 * descs.length * 5
    rw [batchBuffer_length]
    ring

-- ── Frame driver (`tick()` in `src/main.js`) ───────────────────

/-- The key flags read by `_handleKeys()`.  The `t`/`y` block-edit keys
only touch the external world/block store (`addBlock`, `removeBlock`,
`rebuildBatches`) and are outside the simulated state, so they are not
modelled; the handler's consumption of one-shot keys (resetting
`g_keys[' ']`/`['f']`) lives in the input layer, which here supplies the
flags for the frame. -/
structure Keys where
  w : Bool
  s : Bool
  a : Bool
  d : Bool
  q : Bool
  e : Bool
  space : Bool
  f : Bool

/-- Source `_handleKeys()` — apply held-key movement/pan to the camera in source
order, then the space jump, then the F-key shoot (which reads the camera
as already moved this frame). -/
def handleKeys (k : Keys) (cam : Camera) (g : GunState) : Camera × GunState :=
  let c1 := if k.w then cam.moveForward else cam
  let c2 := if k.s then c1.moveBackwards else c1
  let c3 := if k.a then c2.moveLeft else c2
  let c4 := if k.d then c3.moveRight else c3
  let c5 := if k.q then c4.panLeft else c4
  let c6 := if k.e then c5.panRight else c5
  let c7 := if k.space then c6.jump else c6
  let g1 := if k.f then shoot c7 g else g
  (c7, g1)

/-- The whole simulated game state mutated by one `tick()` (camera, gun
globals, enemy globals, spawn timer, player health, score).  FPS counters,
HUD, sounds and rendering are I/O and are not part of the state. -/
structure SimState where
  camera : Camera
  gun : GunState
  enemies : List Enemy
  spawnTimer : ℤ
  playerHealth : ℝ
  score : ℤ

/-- One `tick()` (minus I/O), in source statement order:
`_handleKeys(); camera.applyGravity(); updateBullets(); updateEnemies(camera);
setBullets(checkBulletHits(getBullets()))`.  `r` is the randomness oracle
for a potential enemy spawn this frame. -/
def tickSim (k : Keys) (r : ℝ × ℝ × ℝ) (st : SimState) : SimState :=
  let hk := handleKeys k st.camera st.gun
  let cam2 := hk.1.applyGravity
  let g2 := updateBullets hk.2
  let ue := updateEnemiesSim r cam2 st.enemies st.spawnTimer st.playerHealth
  let hits := checkBulletHits g2.bullets ue.1
  { camera := cam2, gun := { bullets := hits.1, cooldown := g2.cooldown },
    enemies := hits.2.1, spawnTimer := ue.2.1, playerHealth := ue.2.2,
    score := st.score + hits.2.2 }

/-- C2: the data flow of one tick.  The camera that gravity integrates and
that the enemy-AI step reads is exactly the one produced by this frame's
input handling (no one-frame lag), and bullet–enemy collision resolution
consumes the bullets already advanced by this frame's `updateBullets` and
the enemies already advanced by this frame's `updateEnemiesSim` — i.e.
post-move positions of both. -/
theorem tick_ordering (k : Keys) (r : ℝ × ℝ × ℝ) (st : SimState) :
    (tickSim k r st).camera = (handleKeys k st.camera st.gun).1.applyGravity ∧
      (tickSim k r st).enemies =
        (checkBulletHits (updateBullets (handleKeys k st.camera st.gun).2).bullets
          (updateEnemiesSim r ((handleKeys k st.camera st.gun).1.applyGravity)
            st.enemies st.spawnTimer st.playerHealth).1).2.1 ∧
      (tickSim k r st).gun.bullets =
        (checkBulletHits (updateBullets (handleKeys k st.camera st.gun).2).bullets
          (updateEnemiesSim r ((handleKeys k st.camera st.gun).1.applyGravity)
            st.enemies st.spawnTimer st.playerHealth).1).1 ∧
      (tickSim k r st).playerHealth =
        (updateEnemiesSim r ((handleKeys k st.camera st.gun).1.applyGravity)
          st.enemies st.spawnTimer st.playerHealth).2.2 ∧
      (tickSim k r st).score =
        st.score +
          (checkBulletHits (updateBullets (handleKeys k st.camera st.gun).2).bullets
            (updateEnemiesSim r ((handleKeys k st.camera st.gun).1.applyGravity)
              st.enemies st.spawnTimer st.playerHealth).1).2.2 :=
  ⟨rfl, rfl, rfl, rfl, rfl⟩

/-- C1 amended: the end-of-pass filter in `updateEnemies` leaves no dead
enemy in the list it returns, so an enemy killed by hit resolution (which
runs after that filter within the same tick) is removed during the NEXT
tick's enemy-update step, not the one in which it died. -/
theorem updateEnemies_output_no_dead (r : ℝ × ℝ × ℝ) (cam : Camera)
    (es : List Enemy) (timer : ℤ) (ph : ℝ) :
    ((updateEnemiesSim r cam es timer ph).1.all fun e => !e.dead) = true := by
  unfold updateEnemiesSim
  dsimp only
  rw [List.all_eq_true]
  intro e he
  exact (List.mem_filter.mp he).2

-- ── Concrete one-tick counterexample state for C1 ──────────────

/-- All keys up. -/
def noKeys : Keys :=
  { w := false, s := false, a := false, d := false, q := false, e := false,
    space := false, f := false }

/-- A live enemy (health 1, undamaged spawn fields otherwise) standing at
the player's position `(16, ·, 16)`. -/
def enemyC1 : Enemy :=
  { x := 16, y := 0.5, z := 16, health := 1, scale := 0.6, bobTime := 0,
    dead := false }

/-- A bullet half a unit short of the enemy, flying straight at it with
the standard yaw-0/pitch-0 muzzle velocity `(0.5, 0, 0)`. -/
def bulletC1 : Bullet :=
  { x := 15.5, y := 0.5, z := 16, dx := 0.5, dy := 0, dz := 0, life := 40 }

/-- The pre-tick state: grounded constructor camera, the single bullet in
flight, the single live enemy, spawn timer 0, full health, score 0. -/
def stC1 : SimState :=
  { camera := cam0, gun := { bullets := [bulletC1], cooldown := 0 },
    enemies := [enemyC1], spawnTimer := 0, playerHealth := 100, score := 0 }

/-- The enemy's post-update record for the counterexample tick (no
movement because it stands on the player; bob phase advanced to 0.08). -/
def enemyC1moved : Enemy :=
  { x := 16, y := 0.5 + |Real.sin 0.08| * 0.15, z := 16, health := 1,
    scale := 0.6, bobTime := 0.08, dead := false }

/-- Input handling is the identity on the no-keys frame. -/
theorem handleKeys_noKeys (cam : Camera) (g : GunState) :
    handleKeys noKeys cam g = (cam, g) := by
  unfold handleKeys noKeys
  simp

/-- The counterexample tick advances the bullet onto the enemy. -/
theorem updateBullets_stC1 :
    updateBullets (GunState.mk [bulletC1] 0) =
      GunState.mk [Bullet.mk 16 0.5 16 0.5 0 0 39] 0 := by
  unfold updateBullets stepBullet bulletC1
  norm_num

/-- The counterexample tick's enemy update: timer ticks to 1 (no spawn),
the enemy does not move (distance 0 to the player), bobs, and damages the
player once. -/
theorem updateEnemiesSim_stC1 :
    updateEnemiesSim (0, 0, 0) cam0 [enemyC1] 0 100 =
      ([enemyC1moved], 1, 99.85) := by
  have hdist : Real.sqrt ((cam0.eye0 - enemyC1.x) * (cam0.eye0 - enemyC1.x) +
      (cam0.eye2 - enemyC1.z) * (cam0.eye2 - enemyC1.z)) = 0 := by
    unfold cam0 enemyC1
    norm_num
  have ht : (ENEMY_SPAWN_RATE ≤ (0 : ℤ) + 1) = False := by
    simp [ENEMY_SPAWN_RATE]
  unfold updateEnemiesSim
  simp only [ht, if_false]
  simp only [enemyPass]
  simp only [show enemyC1.dead = false from rfl, Bool.false_eq_true, if_false]
  rw [hdist]
  norm_num [ENEMY_DAMAGE_DIST, enemyPass, enemyC1, enemyC1moved]

/-- The hit test of the counterexample tick: the moved bullet sits at the
enemy's horizontal position; the vertical offset is at most the bob
amplitude 0.15, well inside the radius `0.6 + 0.3`. -/
theorem hit_stC1 :
    bulletDist (Bullet.mk 16 0.5 16 0.5 0 0 39) enemyC1moved <
      enemyC1moved.scale + 0.3 := by
  unfold bulletDist enemyC1moved
  dsimp only
  have habs : |Real.sin 0.08| ≤ 1 := abs_le.mpr
    ⟨Real.neg_one_le_sin 0.08, Real.sin_le_one 0.08⟩
  have hnn : (0 : ℝ) ≤ |Real.sin 0.08| := abs_nonneg _
  have harg : (16 - 16 : ℝ) * (16 - 16) +
      (0.5 - (0.5 + |Real.sin 0.08| * 0.15)) * (0.5 - (0.5 + |Real.sin 0.08| * 0.15)) +
      (16 - 16 : ℝ) * (16 - 16) = (|Real.sin 0.08| * 0.15) ^ 2 := by
    ring
  rw [harg, Real.sqrt_sq (by positivity)]
  nlinarith

/-- C1 counterexample: a tick in which hit resolution kills the enemy
(score goes up by 10) ends with that enemy still in the enemy list,
flagged dead — the dead enemy survives into the next frame's active set,
contradicting removal "by the end of that same update step". -/
theorem dead_enemy_survives_tick :
    (tickSim noKeys (0, 0, 0) stC1).enemies.map Enemy.dead = [true] ∧
      (tickSim noKeys (0, 0, 0) stC1).score = 10 ∧
      enemyC1.dead = false := by
  have hcam : cam0.applyGravity = cam0 := by
    unfold Camera.applyGravity cam0
    simp
  have hscan : scanEnemies (Bullet.mk 16 0.5 16 0.5 0 0 39) [enemyC1moved] =
      ([{ enemyC1moved with health := 0, dead := true }], 10, true) := by
    simp only [scanEnemies]
    rw [if_neg (by rw [show enemyC1moved.dead = false from rfl]; simp),
      if_pos hit_stC1]
    rw [show enemyC1moved.health = 1 from rfl]
    norm_num
  have hmain : tickSim noKeys (0, 0, 0) stC1 =
      { camera := cam0, gun := { bullets := [], cooldown := 0 },
        enemies := [{ enemyC1moved with health := 0, dead := true }],
        spawnTimer := 1, playerHealth := 99.85, score := 0 + 10 } := by
    unfold tickSim
    dsimp only [stC1]
    rw [handleKeys_noKeys cam0 (GunState.mk [bulletC1] 0)]
    dsimp only
    rw [hcam, updateBullets_stC1, updateEnemiesSim_stC1]
    dsimp only
    simp [checkBulletHits, hscan]
  rw [hmain]
  refine ⟨by simp, by norm_num, rfl⟩

end
